import Mathlib

/-!
Verification of the OpenDMD training core (src/dmd/model.py, src/train_dmd.py)
against its natural-language specification.  Tensors are embedded as functions
from index types to the reals; external randomness (sampled timesteps, sampled
Gaussian noise) is passed explicitly as an argument; networks are opaque
functions matching the spec's network-evaluation interface.
-/

namespace OpenDMD

noncomputable section

/-- A 4-dimensional tensor `[batch, channels, height, width]` of real entries,
embedded as a function of its indices. -/
def Tensor (b c h w : ℕ) : Type := Fin b → Fin c → Fin h → Fin w → ℝ

/-- Sum of all entries of a tensor. -/
def tsum4 {b c h w : ℕ} (x : Tensor b c h w) : ℝ :=
  ∑ i, ∑ j, ∑ k, ∑ l, x i j k l

/-- Mean of all entries of a tensor (`Tensor.mean()` over every dimension). -/
def tmean4 {b c h w : ℕ} (x : Tensor b c h w) : ℝ :=
  tsum4 x / (b * c * h * w : ℕ)

/-- `F.mse_loss(x, y, reduction="mean")`: the mean of squared entrywise
differences. -/
def mseLoss {b c h w : ℕ} (x y : Tensor b c h w) : ℝ :=
  tmean4 (fun i j k l => (x i j k l - y i j k l) ^ 2)

/-- `F.mse_loss(x, y, reduction="none")`: entrywise squared differences. -/
def mseLossNone {b c h w : ℕ} (x y : Tensor b c h w) : Tensor b c h w :=
  fun i j k l => (x i j k l - y i j k l) ^ 2

/-- Per-sample mean: `t.mean(dim=[1,2,3])`, reducing all non-batch dimensions. -/
def perSampleMean {b c h w : ℕ} (x : Tensor b c h w) : Fin b → ℝ :=
  fun i => (∑ j, ∑ k, ∑ l, x i j k l) / (c * h * w : ℕ)

/-- The noise scheduler's configuration and precomputed table used by the
training code: `num_train_timesteps`, the cumulative-product table
`alphas_cumprod`, and the configured `prediction_type` string. -/
structure Scheduler where
  numTrainTimesteps : ℕ
  alphasCumprod : ℕ → ℝ
  predictionType : String

/-- `eps_to_mu(scheduler, model_output, sample, timesteps)` from
src/dmd/model.py lines 45-52: gathers `alpha_prod_t = alphas_cumprod[timesteps]`,
broadcasts it (the unsqueeze loop) across all non-batch dimensions of `sample`,
sets `beta_prod_t = 1 - alpha_prod_t`, and returns
`(sample - beta_prod_t ** 0.5 * model_output) / alpha_prod_t ** 0.5`. -/
def epsToMu {b c h w : ℕ} (scheduler : Scheduler)
    (modelOutput sample : Tensor b c h w) (timesteps : Fin b → ℕ) :
    Tensor b c h w :=
  -- alpha_prod_t = alphas_cumprod[timesteps], whose broadcast across the
  -- non-batch dimensions is the dependence on `timesteps i` alone;
  -- beta_prod_t = 1 - alpha_prod_t
  fun i j k l =>
    (sample i j k l -
        (1 - scheduler.alphasCumprod (timesteps i)) ^ ((1 : ℝ) / 2) * modelOutput i j k l) /
      scheduler.alphasCumprod (timesteps i) ^ ((1 : ℝ) / 2)

/-- Modelled from the spec: `sample_to_epsilon_target(schedule, timestep, noise,
latent)`, the forward-diffusion step `noisy = sqrt(alpha_prod[t]) * latent +
sqrt(1 - alpha_prod[t]) * noise`.  The training code calls this operation as
`noise_scheduler.add_noise`, which lives in the external diffusers library and
is not part of this repository's sources. -/
def addNoise {b c h w : ℕ} (scheduler : Scheduler)
    (latents noise : Tensor b c h w) (timesteps : Fin b → ℕ) : Tensor b c h w :=
  fun i j k l =>
    Real.sqrt (scheduler.alphasCumprod (timesteps i)) * latents i j k l +
      Real.sqrt (1 - scheduler.alphasCumprod (timesteps i)) * noise i j k l

/-- A concrete 1×1×1×1 constant tensor with value `r`. -/
def constT (r : ℝ) : Tensor 1 1 1 1 := fun _ _ _ _ => r

/-- A concrete schedule used by witnesses: `alpha_prod` is `1/2` everywhere,
`T = 1000`, epsilon prediction. -/
def schedW : Scheduler :=
  { numTrainTimesteps := 1000
    alphasCumprod := fun _ => 1 / 2
    predictionType := "epsilon" }

/-- A concrete schedule in velocity mode, used by witnesses. -/
def schedV : Scheduler :=
  { numTrainTimesteps := 1000
    alphasCumprod := fun _ => 1 / 2
    predictionType := "v_prediction" }

/-- A concrete schedule with an unknown prediction type, used by witnesses. -/
def schedBad : Scheduler :=
  { numTrainTimesteps := 1000
    alphasCumprod := fun _ => 1 / 2
    predictionType := "sample" }

/-- `stopgrad(x) = x.detach()` from src/dmd/model.py lines 89-90: on values it
is the identity; its gradient-blocking behaviour is modelled separately in the
`Autodiff` section below. -/
def stopgrad (x : ℝ) : ℝ := x

/-- The network-evaluation interface of the spec:
`evaluate(latent, timestep, conditioning) -> noise_prediction`, with the same
tensor shape as `latent`, available at every batch size (the teacher is invoked
both at batch `b` and at the duplicated batch `b + b`). -/
def UNet (c h w : ℕ) (E : Type) : Type :=
  ∀ n : ℕ, Tensor n c h w → (Fin n → ℕ) → (Fin n → E) → Tensor n c h w

/-- `torch.cat([x, y])` along the batch dimension. -/
def cat2 {b b' c h w : ℕ} (x : Tensor b c h w) (y : Tensor b' c h w) :
    Tensor (b + b') c h w :=
  fun i => Fin.addCases (fun i => x i) (fun i => y i) i

/-- `torch.cat` along the batch dimension for per-sample data (timesteps,
prompt embeddings). -/
def catV {b b' : ℕ} {α : Type} (x : Fin b → α) (y : Fin b' → α) :
    Fin (b + b') → α :=
  Fin.addCases x y

/-- `z.chunk(2)` for a tensor whose batch dimension is `b + b`: the first and
second half along the batch dimension. -/
def chunk2 {b c h w : ℕ} (z : Tensor (b + b) c h w) :
    Tensor b c h w × Tensor b c h w :=
  (fun i => z (Fin.castAdd b i), fun i => z (Fin.natAdd b i))

/-- The classifier-free-guided teacher prediction, src/dmd/model.py lines
71-78: duplicate the noisy latents and timesteps, run the real unet once on the
batched `[negative; positive]` prompt embeddings, chunk the output in two, and
combine `uncond + guidance_scale * (cond - uncond)`. -/
def cfgNoisePred {b c h w : ℕ} {E : Type} (real_unet : UNet c h w E)
    (noisy_latents : Tensor b c h w) (timestep : Fin b → ℕ)
    (negative_prompt_embeds prompt_embeds : Fin b → E) (guidance_scale : ℝ) :
    Tensor b c h w :=
  let noise_pred := real_unet (b + b) (cat2 noisy_latents noisy_latents)
    (catV timestep timestep) (catV negative_prompt_embeds prompt_embeds)
  let noise_pred_uncond := (chunk2 noise_pred).1
  let noise_pred_text := (chunk2 noise_pred).2
  fun i j k l =>
    noise_pred_uncond i j k l +
      guidance_scale * (noise_pred_text i j k l - noise_pred_uncond i j k l)

/-- The "real" clean-latent estimate, src/dmd/model.py line 80: `eps_to_mu` of
the guided teacher prediction. -/
def predRealLatents {b c h w : ℕ} {E : Type} (real_unet : UNet c h w E)
    (scheduler : Scheduler) (noisy_latents : Tensor b c h w)
    (timestep : Fin b → ℕ) (negative_prompt_embeds prompt_embeds : Fin b → E)
    (guidance_scale : ℝ) : Tensor b c h w :=
  epsToMu scheduler
    (cfgNoisePred real_unet noisy_latents timestep negative_prompt_embeds
      prompt_embeds guidance_scale)
    noisy_latents timestep

/-- The "fake" clean-latent estimate, src/dmd/model.py lines 66-69:
`eps_to_mu` of the fake unet's conditioned prediction. -/
def predFakeLatents {b c h w : ℕ} {E : Type} (fake_unet : UNet c h w E)
    (scheduler : Scheduler) (noisy_latents : Tensor b c h w)
    (timestep : Fin b → ℕ) (prompt_embeds : Fin b → E) : Tensor b c h w :=
  epsToMu scheduler (fake_unet b noisy_latents timestep prompt_embeds)
    noisy_latents timestep

/-- The per-sample weighting factor, src/dmd/model.py line 82: mean absolute
difference between the original latents and the real estimate, reduced over all
non-batch dimensions (`.mean(dim=[1,2,3], keepdim=True)`). -/
def weightingFactor {b c h w : ℕ} (latents pred_real_latents : Tensor b c h w) :
    Fin b → ℝ :=
  fun i =>
    (∑ j, ∑ k, ∑ l, |latents i j k l - pred_real_latents i j k l|) /
      (c * h * w : ℕ)

/-- `distribution_matching_loss` from src/dmd/model.py lines 55-86, with the
externally sampled randomness (the per-sample `timestep` from the mid-noise
band, line 61, and the Gaussian `noise`, line 62) passed in explicitly, and
`args` reduced to the only field the body reads, `guidance_scale`. -/
def distributionMatchingLoss {b c h w : ℕ} {E : Type}
    (real_unet fake_unet : UNet c h w E) (noise_scheduler : Scheduler)
    (latents : Tensor b c h w)
    (prompt_embeds negative_prompt_embeds : Fin b → E) (guidance_scale : ℝ)
    (timestep : Fin b → ℕ) (noise : Tensor b c h w) : ℝ :=
  let noisy_latents := addNoise noise_scheduler latents noise timestep
  let pred_fake_latents :=
    predFakeLatents fake_unet noise_scheduler noisy_latents timestep prompt_embeds
  let pred_real_latents :=
    predRealLatents real_unet noise_scheduler noisy_latents timestep
      negative_prompt_embeds prompt_embeds guidance_scale
  let grad := fun i j k l =>
    (pred_fake_latents i j k l - pred_real_latents i j k l) /
      weightingFactor latents pred_real_latents i
  mseLoss latents (fun i j k l => stopgrad (latents i j k l - grad i j k l))

/-- The all-zero network, used by witnesses as the stub teacher/fake network
returning a zero noise prediction always. -/
def zeroUNet (c h w : ℕ) (E : Type) : UNet c h w E := fun _ _ _ _ _ _ _ _ => 0

/-- Python-level errors surfaced by the training script. -/
inductive PyError where
  | valueError : String → PyError
  | nameError : String → PyError
deriving DecidableEq

/-- Modelled from the spec: the velocity parameterization computed from
latents, noise and timesteps used in `v_prediction` mode.  The training code
calls `noise_scheduler.get_velocity` (external diffusers library):
`velocity = sqrt(alpha_prod[t]) * noise - sqrt(1 - alpha_prod[t]) * latents`. -/
def getVelocity {b c h w : ℕ} (scheduler : Scheduler)
    (latents noise : Tensor b c h w) (timesteps : Fin b → ℕ) : Tensor b c h w :=
  fun i j k l =>
    Real.sqrt (scheduler.alphasCumprod (timesteps i)) * noise i j k l -
      Real.sqrt (1 - scheduler.alphasCumprod (timesteps i)) * latents i j k l

/-- Regression-target selection of the fake-score step, src/train_dmd.py lines
405-410: raw noise for `epsilon`, the velocity for `v_prediction`, and a
`ValueError` for any other configured prediction type. -/
def selectFakeTarget {b c h w : ℕ} (scheduler : Scheduler)
    (latents noise : Tensor b c h w) (timesteps : Fin b → ℕ) :
    Except PyError (Tensor b c h w) :=
  if scheduler.predictionType = "epsilon" then .ok noise
  else if scheduler.predictionType = "v_prediction" then
    .ok (getVelocity scheduler latents noise timesteps)
  else .error (.valueError ("Unknown prediction type " ++ scheduler.predictionType))

/-- The fake-score training step, src/train_dmd.py lines 396-438, with the
part after target selection (forward pass, loss, backward, clip, optimizer
step, lines 412-438) abstracted as `optimize` acting on the fake parameters:
target selection runs first, so an unknown prediction type raises before any
parameter update and the step returns the error with the parameters untouched. -/
def fakeScoreStep {b c h w : ℕ} {P : Type} (scheduler : Scheduler)
    (latents noise : Tensor b c h w) (timesteps : Fin b → ℕ) (params : P)
    (optimize : P → Tensor b c h w → P) : Except PyError P := do
  let target ← selectFakeTarget scheduler latents noise timesteps
  pure (optimize params target)

/-- Modelled from the spec: the per-sample signal-to-noise ratio computed from
the schedule.  The training code calls `compute_snr` (external diffusers
library): `snr = alpha_prod / (1 - alpha_prod)` at each sample's timestep. -/
def computeSnr {b : ℕ} (scheduler : Scheduler) (timesteps : Fin b → ℕ) :
    Fin b → ℝ :=
  fun i =>
    scheduler.alphasCumprod (timesteps i) / (1 - scheduler.alphasCumprod (timesteps i))

/-- src/train_dmd.py lines 421-424: the SNR used for reweighting, with one
added in velocity mode. -/
def effectiveSnr {b : ℕ} (scheduler : Scheduler) (timesteps : Fin b → ℕ) :
    Fin b → ℝ :=
  if scheduler.predictionType = "v_prediction" then
    fun i => computeSnr scheduler timesteps i + 1
  else computeSnr scheduler timesteps

/-- src/train_dmd.py lines 425-427: per-sample weights
`min(snr, snr_gamma) / snr`. -/
def mseLossWeights {b : ℕ} (scheduler : Scheduler) (timesteps : Fin b → ℕ)
    (snrGamma : ℝ) : Fin b → ℝ :=
  fun i =>
    min (effectiveSnr scheduler timesteps i) snrGamma /
      effectiveSnr scheduler timesteps i

/-- src/train_dmd.py lines 429-430: the per-sample vector bound to the python
variable `loss` in the SNR branch: the per-sample mean of the elementwise
squared error, times the per-sample weight. -/
def snrPerSampleLoss {b c h w : ℕ} (scheduler : Scheduler)
    (timesteps : Fin b → ℕ) (snrGamma : ℝ)
    (model_pred target : Tensor b c h w) : Fin b → ℝ :=
  fun i =>
    perSampleMean (mseLossNone model_pred target) i *
      mseLossWeights scheduler timesteps snrGamma i

/-- `loss_d` of the fake-score step, src/train_dmd.py lines 415-431: plain
mean-squared error when `snr_gamma` is unset, otherwise the mean of the
SNR-reweighted per-sample losses. -/
def fakeLossD {b c h w : ℕ} (scheduler : Scheduler) (snrGamma : Option ℝ)
    (model_pred target : Tensor b c h w) (timesteps : Fin b → ℕ) : ℝ :=
  match snrGamma with
  | none => mseLoss model_pred target
  | some γ => (∑ i, snrPerSampleLoss scheduler timesteps γ model_pred target i) / b

/-- The binding of the python variable `loss` when line 472 is reached,
src/train_dmd.py lines 415-431: in the `snr_gamma is None` branch only
`loss_d` is assigned and `loss` stays unbound; in the SNR branch `loss` holds
the per-sample weighted loss vector of shape `[bsz]`. -/
def lossVarBinding {b c h w : ℕ} (scheduler : Scheduler) (snrGamma : Option ℝ)
    (model_pred target : Tensor b c h w) (timesteps : Fin b → ℕ) :
    Option (Fin b → ℝ) :=
  match snrGamma with
  | none => none
  | some γ => some (snrPerSampleLoss scheduler timesteps γ model_pred target)

/-- `t.item()` on a tensor with batch dimension `b`: a scalar only when the
tensor has exactly one element, an error otherwise. -/
def tensorItem {b : ℕ} (v : Fin b → ℝ) : Except PyError ℝ :=
  if hb : b = 1 then .ok (v ⟨0, by omega⟩)
  else .error (.valueError "only one element tensors can be converted to Python scalars")

/-- src/train_dmd.py line 472:
`logs = {"loss_g": loss.detach().item(), "loss_d": loss_d.detach().item()}` —
resolving the name `loss` (a `NameError` when unbound) and calling `.item()`
on it. -/
def emitIterationLogs {b : ℕ} (lossVar : Option (Fin b → ℝ)) (loss_d : ℝ) :
    Except PyError (ℝ × ℝ) :=
  match lossVar with
  | none => .error (.nameError "loss")
  | some v => do
      let x ← tensorItem v
      pure (x, loss_d)

/-- The names returned by `setup_model`, src/train_dmd.py line 207. -/
def setupModelReturn : List String :=
  ["real_unet", "fake_unet", "student_unet", "noise_scheduler", "tokenizer",
    "text_encoder", "vae"]

/-- The names `main` unpacks the return of `setup_model` into, src/train_dmd.py
lines 304-305. -/
def mainSetupModelTargets : List String :=
  ["real_unet", "fake_unet", "student_unet", "noise_scheduler", "tokenizer",
    "text_encoder", "vae", "small_vae"]

/-- Python tuple unpacking `x1, ..., xk = e`: succeeds exactly when the number
of values matches the number of targets, raising a `ValueError` otherwise. -/
def tupleUnpack {α : Type} (targets : ℕ) (values : List α) :
    Except PyError (List α) :=
  if values.length = targets then .ok values
  else if targets < values.length then
    .error (.valueError "too many values to unpack")
  else .error (.valueError "not enough values to unpack")

/-- `main` up to the unpacking of `setup_model`'s result (src/train_dmd.py
lines 304-305), returning `true` when control would reach the training loop. -/
def mainReachesTrainingLoop : Except PyError Bool := do
  let _ ← tupleUnpack mainSetupModelTargets.length setupModelReturn
  pure true

/-- Checkpoint retention before a save, src/train_dmd.py lines 445-463:
checkpoint directory entries are identified with their step numbers, sorted by
step; when at least `checkpoints_total_limit` are present the oldest
`len - limit + 1` are removed so at most `limit - 1` remain before saving.
Returns (removed checkpoints, kept checkpoints). -/
def checkpointRetention (limit : ℕ) (checkpoints : List ℕ) :
    List ℕ × List ℕ :=
  let sorted := checkpoints.mergeSort (fun a b => a ≤ b)
  if limit ≤ sorted.length then
    let numToRemove := sorted.length - limit + 1
    (sorted.take numToRemove, sorted.drop numToRemove)
  else ([], sorted)

/-- A checkpoint save at `global_step`, src/train_dmd.py lines 445-466:
retention enforcement (when a limit is configured) followed by writing
`checkpoint-<global_step>`.  Returns (removed checkpoints, directory contents
after the save, by step). -/
def saveCheckpoint (limit : Option ℕ) (checkpoints : List ℕ)
    (globalStep : ℕ) : List ℕ × List ℕ :=
  match limit with
  | some n =>
    let r := checkpointRetention n checkpoints
    (r.1, r.2 ++ [globalStep])
  | none => ([], checkpoints ++ [globalStep])

/-- Differentiable scalar expressions over the student and fake parameter
stores, with `stopgrad` (`Tensor.detach`) as an explicit node severing the
differentiation edge.  This models the autodiff semantics of the fake-score
phase, whose loss consumes `stopgrad(latents_pred_cat)` and
`stopgrad(prompt_embeds)` (src/train_dmd.py lines 392-394). -/
inductive Expr where
  | lit : ℝ → Expr
  | studentParam : ℕ → Expr
  | fakeParam : ℕ → Expr
  | add : Expr → Expr → Expr
  | mul : Expr → Expr → Expr
  | neg : Expr → Expr
  | stopgrad : Expr → Expr

/-- Value of an expression given the two parameter stores. -/
def Expr.eval (sp fp : ℕ → ℝ) : Expr → ℝ
  | .lit r => r
  | .studentParam i => sp i
  | .fakeParam i => fp i
  | .add a b => a.eval sp fp + b.eval sp fp
  | .mul a b => a.eval sp fp * b.eval sp fp
  | .neg a => -a.eval sp fp
  | .stopgrad a => a.eval sp fp

/-- Derivative with respect to student parameter `i`; `stopgrad` blocks it. -/
def Expr.gradStudent (i : ℕ) (sp fp : ℕ → ℝ) : Expr → ℝ
  | .lit _ => 0
  | .studentParam j => if j = i then 1 else 0
  | .fakeParam _ => 0
  | .add a b => a.gradStudent i sp fp + b.gradStudent i sp fp
  | .mul a b =>
    a.gradStudent i sp fp * b.eval sp fp + a.eval sp fp * b.gradStudent i sp fp
  | .neg a => -a.gradStudent i sp fp
  | .stopgrad _ => 0

/-- Derivative with respect to fake parameter `i`; `stopgrad` blocks it. -/
def Expr.gradFake (i : ℕ) (sp fp : ℕ → ℝ) : Expr → ℝ
  | .lit _ => 0
  | .studentParam _ => 0
  | .fakeParam j => if j = i then 1 else 0
  | .add a b => a.gradFake i sp fp + b.gradFake i sp fp
  | .mul a b =>
    a.gradFake i sp fp * b.eval sp fp + a.eval sp fp * b.gradFake i sp fp
  | .neg a => -a.gradFake i sp fp
  | .stopgrad _ => 0

/-- An expression built only from the given input expressions, literals
(including the frozen noise and timesteps), fake parameters, and the
arithmetic and `stopgrad` operations: the shape of the fake-score loss
`loss_d`, whose only access to student-dependent values is through the
designated inputs. -/
inductive BuiltFrom (inputs : List Expr) : Expr → Prop where
  | input {e} : e ∈ inputs → BuiltFrom inputs e
  | lit (r : ℝ) : BuiltFrom inputs (.lit r)
  | fakeParam (i : ℕ) : BuiltFrom inputs (.fakeParam i)
  | add {a b} : BuiltFrom inputs a → BuiltFrom inputs b →
      BuiltFrom inputs (.add a b)
  | mul {a b} : BuiltFrom inputs a → BuiltFrom inputs b →
      BuiltFrom inputs (.mul a b)
  | neg {a} : BuiltFrom inputs a → BuiltFrom inputs (.neg a)
  | stopgrad (a : Expr) : BuiltFrom inputs (.stopgrad a)

/-- The mutable training state of one iteration: the two parameter stores and
their accumulated gradients. -/
structure TrainState where
  studentParams : ℕ → ℝ
  fakeParams : ℕ → ℝ
  studentGrads : ℕ → ℝ
  fakeGrads : ℕ → ℝ

/-- `accelerator.backward(loss)`: accumulate the loss's derivative into the
gradient buffer of every parameter of every network. -/
def backward (loss : Expr) (st : TrainState) : TrainState :=
  { st with
    studentGrads := fun i =>
      st.studentGrads i + loss.gradStudent i st.studentParams st.fakeParams
    fakeGrads := fun i =>
      st.fakeGrads i + loss.gradFake i st.studentParams st.fakeParams }

/-- `fake_optimizer.step()`: the fake optimizer owns exactly
`fake_unet.parameters()` (src/train_dmd.py lines 247-253), so only the fake
parameters move, by a step along the accumulated gradient. -/
def fakeOptStep (lr : ℝ) (st : TrainState) : TrainState :=
  { st with fakeParams := fun i => st.fakeParams i - lr * st.fakeGrads i }

/-- `fake_optimizer.zero_grad()` (src/train_dmd.py line 438). -/
def fakeZeroGrad (st : TrainState) : TrainState :=
  { st with fakeGrads := fun _ => 0 }

/-- The fake-unet training phase of one iteration, src/train_dmd.py lines
388-438: backward on `loss_d`, fake optimizer step, fake zero_grad. -/
def fakeTrainPhase (loss_d : Expr) (lr : ℝ) (st : TrainState) : TrainState :=
  fakeZeroGrad (fakeOptStep lr (backward loss_d st))

/-- The observable actions of one training iteration. -/
inductive TrainAction where
  | encodePrompts | generateStudent | computeLossKl | computeLossReg
  | computeLossG | backwardLossG | clipStudentGrad | studentOptimizerStep
  | studentLrStep | studentZeroGrad | detachLatents | detachPromptEmbeds
  | sampleNoise | sampleTimesteps | addNoiseLatents | selectTarget
  | fakeForward | computeLossD | backwardLossD | clipFakeGrad
  | fakeOptimizerStep | fakeLrStep | fakeZeroGradAction | checkpointMaybe
  | logScalars
deriving DecidableEq, BEq

/-- The actions of one iteration of the training loop, in program order
(src/train_dmd.py lines 353-474). -/
def trainIterationActions : List TrainAction :=
  [.encodePrompts, .generateStudent, .computeLossKl, .computeLossReg,
    .computeLossG, .backwardLossG, .clipStudentGrad, .studentOptimizerStep,
    .studentLrStep, .studentZeroGrad, .detachLatents, .detachPromptEmbeds,
    .sampleNoise, .sampleTimesteps, .addNoiseLatents, .selectTarget,
    .fakeForward, .computeLossD, .backwardLossD, .clipFakeGrad,
    .fakeOptimizerStep, .fakeLrStep, .fakeZeroGradAction, .checkpointMaybe,
    .logScalars]

/-- A concrete fake-score loss used by witnesses: the detached student output
times a fake parameter. -/
def lossW : Expr := Expr.mul (Expr.stopgrad (Expr.studentParam 0)) (Expr.fakeParam 0)

/-- A concrete training state used by witnesses. -/
def stW : TrainState :=
  { studentParams := fun _ => 1
    fakeParams := fun _ => 1
    studentGrads := fun _ => 0
    fakeGrads := fun _ => 0 }

/-- Helper: the real power `x ^ (1/2)` used to transcribe `** 0.5` agrees with
`Real.sqrt` on every real. -/
theorem rpow_half_eq_sqrt (x : ℝ) : x ^ ((1 : ℝ) / 2) = Real.sqrt x :=
  (Real.sqrt_eq_rpow x).symm

/-- Helper: the mean-squared error of a tensor against itself is zero. -/
theorem mseLoss_self {b c h w : ℕ} (x : Tensor b c h w) : mseLoss x x = 0 := by
  simp [mseLoss, tmean4, tsum4]

/-- C4: `eps_to_mu` computes exactly
`pred_clean = (noisy_latent - sqrt(1 - alpha_prod[t]) * predicted_noise) /
sqrt(alpha_prod[t])` at every index, the per-timestep schedule scalar being
broadcast across all non-batch dimensions; the result has the same shape as the
input sample (same index type) and the function is pure and deterministic in
its inputs. -/
theorem epsToMu_formula {b c h w : ℕ} (scheduler : Scheduler)
    (modelOutput sample : Tensor b c h w) (timesteps : Fin b → ℕ)
    (i : Fin b) (j : Fin c) (k : Fin h) (l : Fin w) :
    epsToMu scheduler modelOutput sample timesteps i j k l =
      (sample i j k l -
          Real.sqrt (1 - scheduler.alphasCumprod (timesteps i)) * modelOutput i j k l) /
        Real.sqrt (scheduler.alphasCumprod (timesteps i)) := by
  simp only [epsToMu, rpow_half_eq_sqrt]

/-- C5: forward diffusion and `eps_to_mu` are mutual inverses: for any schedule
whose `alpha_prod` values are strictly positive at the sampled timesteps,
recovering the clean latent from `add_noise(latents, noise, t)` with the same
`noise` as predicted noise returns the original latents exactly. -/
theorem epsToMu_addNoise_roundtrip {b c h w : ℕ} (scheduler : Scheduler)
    (latents noise : Tensor b c h w) (timesteps : Fin b → ℕ)
    (hpos : ∀ i, 0 < scheduler.alphasCumprod (timesteps i)) :
    epsToMu scheduler noise (addNoise scheduler latents noise timesteps) timesteps =
      latents := by
  funext i j k l
  have hne : Real.sqrt (scheduler.alphasCumprod (timesteps i)) ≠ 0 :=
    Real.sqrt_ne_zero'.mpr (hpos i)
  simp only [epsToMu, addNoise, rpow_half_eq_sqrt]
  field_simp

/-- Witness for C5 at a concrete input: the schedule value `1/2` is strictly
positive and the round trip returns the original latent tensor. -/
theorem epsToMu_addNoise_roundtrip_witness :
    (0 : ℝ) < schedW.alphasCumprod 500 ∧
      epsToMu schedW (constT 3)
          (addNoise schedW (constT 2) (constT 3) (fun _ => 500)) (fun _ => 500) =
        constT 2 :=
  ⟨by norm_num [schedW],
    epsToMu_addNoise_roundtrip schedW (constT 2) (constT 3) (fun _ => 500)
      (fun _ => by norm_num [schedW])⟩

/-- C1: when both the fake network and the teacher network return an all-zero
noise prediction and `guidance_scale = 1`, the classifier-free-guided teacher
prediction `uncond + guidance_scale * (cond - uncond)` is zero, the fake and
real clean-latent estimates coincide, the pseudo-gradient is zero, and
`distribution_matching_loss` returns exactly zero, provided the per-sample
weighting factor is nonzero for every sample. -/
theorem distributionMatchingLoss_zero_networks {b c h w : ℕ} {E : Type}
    (real_unet fake_unet : UNet c h w E) (sched : Scheduler)
    (latents noise : Tensor b c h w) (prompt_embeds negative_prompt_embeds : Fin b → E)
    (ts : Fin b → ℕ)
    (hreal : ∀ n x t e i j k l, real_unet n x t e i j k l = 0)
    (hfake : ∀ n x t e i j k l, fake_unet n x t e i j k l = 0)
    (_hw : ∀ i, weightingFactor latents
        (predRealLatents real_unet sched (addNoise sched latents noise ts) ts
          negative_prompt_embeds prompt_embeds 1) i ≠ 0) :
    distributionMatchingLoss real_unet fake_unet sched latents prompt_embeds
      negative_prompt_embeds 1 ts noise = 0 := by
  have h1 : predFakeLatents fake_unet sched (addNoise sched latents noise ts) ts
      prompt_embeds =
      predRealLatents real_unet sched (addNoise sched latents noise ts) ts
        negative_prompt_embeds prompt_embeds 1 := by
    funext i j k l
    simp [predFakeLatents, predRealLatents, epsToMu, cfgNoisePred, chunk2,
      cat2, catV, hreal, hfake]
  simp only [distributionMatchingLoss, h1, sub_self, zero_div, sub_zero, stopgrad]
  exact mseLoss_self latents

/-- Witness for C1 at a concrete input (batch 1, `alpha_prod = 1/2`, latents
constantly 2, noise constantly 3): the weighting factor is nonzero there and
the loss evaluates to zero. -/
theorem distributionMatchingLoss_zero_networks_witness :
    weightingFactor (constT 2)
        (predRealLatents (zeroUNet 1 1 1 Unit) schedW
          (addNoise schedW (constT 2) (constT 3) (fun _ => 500)) (fun _ => 500)
          (fun _ => ()) (fun _ => ()) 1) 0 ≠ 0 ∧
      distributionMatchingLoss (zeroUNet 1 1 1 Unit) (zeroUNet 1 1 1 Unit)
        schedW (constT 2) (fun _ => ()) (fun _ => ()) 1 (fun _ => 500)
        (constT 3) = 0 := by
  have h2 : Real.sqrt 2 ≠ 0 := Real.sqrt_ne_zero'.mpr (by norm_num)
  have h5 : ((Real.sqrt 2)⁻¹ * 2 + (Real.sqrt 2)⁻¹ * 3) * Real.sqrt 2 = 5 := by
    field_simp
    ring
  have hw0 : weightingFactor (constT 2)
      (predRealLatents (zeroUNet 1 1 1 Unit) schedW
        (addNoise schedW (constT 2) (constT 3) (fun _ => 500)) (fun _ => 500)
        (fun _ => ()) (fun _ => ()) 1) 0 ≠ 0 := by
    norm_num [weightingFactor, predRealLatents, cfgNoisePred, chunk2, cat2,
      catV, zeroUNet, epsToMu, addNoise, schedW, constT, rpow_half_eq_sqrt,
      Fin.sum_univ_one, h5]
  refine ⟨hw0, distributionMatchingLoss_zero_networks _ _ _ _ _ _ _ _
    (fun _ _ _ _ _ _ _ _ => rfl) (fun _ _ _ _ _ _ _ _ => rfl) (fun i => ?_)⟩
  rw [Subsingleton.elim i 0]
  exact hw0

/-- C10: for every batch sample whose latents differ from the real clean-latent
estimate in at least one element, the per-sample weighting factor (mean
absolute difference over all non-batch dimensions) is strictly positive, so the
division forming the pseudo-gradient does not divide by zero there. -/
theorem weightingFactor_pos {b c h w : ℕ}
    (latents pred_real_latents : Tensor b c h w) (i : Fin b)
    (hne : ∃ j k l, latents i j k l ≠ pred_real_latents i j k l) :
    0 < weightingFactor latents pred_real_latents i := by
  obtain ⟨j, k, l, hjkl⟩ := hne
  have hcount : (0 : ℝ) < (c * h * w : ℕ) := by
    have : 0 < c * h * w := Nat.mul_pos (Nat.mul_pos j.pos k.pos) l.pos
    exact_mod_cast this
  unfold weightingFactor
  refine div_pos ?_ hcount
  have habs : 0 < |latents i j k l - pred_real_latents i j k l| :=
    abs_pos.mpr (sub_ne_zero.mpr hjkl)
  have h1 : |latents i j k l - pred_real_latents i j k l| ≤
      ∑ l', |latents i j k l' - pred_real_latents i j k l'| :=
    Finset.single_le_sum
      (f := fun l' => |latents i j k l' - pred_real_latents i j k l'|)
      (fun _ _ => abs_nonneg _) (Finset.mem_univ l)
  have h2 : ∑ l', |latents i j k l' - pred_real_latents i j k l'| ≤
      ∑ k', ∑ l', |latents i j k' l' - pred_real_latents i j k' l'| :=
    Finset.single_le_sum
      (f := fun k' => ∑ l', |latents i j k' l' - pred_real_latents i j k' l'|)
      (fun _ _ => Finset.sum_nonneg fun _ _ => abs_nonneg _)
      (Finset.mem_univ k)
  have h3 : ∑ k', ∑ l', |latents i j k' l' - pred_real_latents i j k' l'| ≤
      ∑ j', ∑ k', ∑ l', |latents i j' k' l' - pred_real_latents i j' k' l'| :=
    Finset.single_le_sum
      (f := fun j' =>
        ∑ k', ∑ l', |latents i j' k' l' - pred_real_latents i j' k' l'|)
      (fun _ _ => Finset.sum_nonneg fun _ _ =>
        Finset.sum_nonneg fun _ _ => abs_nonneg _)
      (Finset.mem_univ j)
  linarith

/-- Witness for C10: with latents constantly 2 and a real estimate constantly
3 on a 1×1×1×1 batch, the latents differ at index (0,0,0,0) and the weighting
factor is strictly positive. -/
theorem weightingFactor_pos_witness :
    constT 2 0 0 0 0 ≠ constT 3 0 0 0 0 ∧
      0 < weightingFactor (constT 2) (constT 3) 0 :=
  ⟨by norm_num [constT],
    weightingFactor_pos (constT 2) (constT 3) 0
      ⟨0, 0, 0, by norm_num [constT]⟩⟩

/-- Helper: if every designated input is an explicit `stopgrad` node and the
loss is built only from inputs, literals, fake parameters and the operations,
then its derivative with respect to any student parameter vanishes. -/
theorem gradStudent_eq_zero_of_detached {inputs : List Expr}
    (hin : ∀ e ∈ inputs, ∃ e', e = Expr.stopgrad e') {L : Expr}
    (hb : BuiltFrom inputs L) (i : ℕ) (sp fp : ℕ → ℝ) :
    L.gradStudent i sp fp = 0 := by
  induction hb with
  | input he =>
    obtain ⟨e', rfl⟩ := hin _ he
    simp [Expr.gradStudent]
  | lit r => simp [Expr.gradStudent]
  | fakeParam j => simp [Expr.gradStudent]
  | add _ _ iha ihb => simp [Expr.gradStudent, iha, ihb]
  | mul _ _ iha ihb => simp [Expr.gradStudent, iha, ihb]
  | neg _ iha => simp [Expr.gradStudent, iha]
  | stopgrad a => simp [Expr.gradStudent]

/-- C2: the fake-score training phase consumes the student's predicted latents
and the prompt embeddings only through `stopgrad`, so running it (backward,
fake optimizer step, fake zero_grad) leaves every student weight — and every
student gradient buffer — bit-identical; and within an iteration the fake
optimizer step occurs strictly after the student optimizer step. -/
theorem fakeTrainPhase_student_frame (latents_pred prompt_embeds loss_d : Expr)
    (lr : ℝ) (st : TrainState)
    (hb : BuiltFrom [Expr.stopgrad latents_pred, Expr.stopgrad prompt_embeds]
      loss_d) :
    (fakeTrainPhase loss_d lr st).studentParams = st.studentParams ∧
      (fakeTrainPhase loss_d lr st).studentGrads = st.studentGrads ∧
      trainIterationActions.indexOf TrainAction.studentOptimizerStep <
        trainIterationActions.indexOf TrainAction.fakeOptimizerStep := by
  have hin : ∀ e ∈ [Expr.stopgrad latents_pred, Expr.stopgrad prompt_embeds],
      ∃ e', e = Expr.stopgrad e' := by
    intro e he
    simp only [List.mem_cons, List.mem_singleton, List.not_mem_nil, or_false] at he
    rcases he with rfl | rfl
    exacts [⟨latents_pred, rfl⟩, ⟨prompt_embeds, rfl⟩]
  have hg : ∀ i, loss_d.gradStudent i st.studentParams st.fakeParams = 0 :=
    fun i => gradStudent_eq_zero_of_detached hin hb i _ _
  refine ⟨rfl, ?_, by decide⟩
  funext i
  simp [fakeTrainPhase, fakeZeroGrad, fakeOptStep, backward, hg]

/-- Witness for C2 at a concrete loss (the detached student output times a
fake parameter) and a concrete state. -/
theorem fakeTrainPhase_student_frame_witness :
    BuiltFrom [Expr.stopgrad (Expr.studentParam 0), Expr.stopgrad (Expr.lit 5)]
        lossW ∧
      (fakeTrainPhase lossW 1 stW).studentParams = stW.studentParams ∧
      (fakeTrainPhase lossW 1 stW).studentGrads = stW.studentGrads := by
  have hb : BuiltFrom
      [Expr.stopgrad (Expr.studentParam 0), Expr.stopgrad (Expr.lit 5)] lossW :=
    BuiltFrom.mul (BuiltFrom.input (List.mem_cons_self _ _))
      (BuiltFrom.fakeParam 0)
  have hfr := fakeTrainPhase_student_frame (Expr.studentParam 0) (Expr.lit 5)
    lossW 1 stW hb
  exact ⟨hb, hfr.1, hfr.2.1⟩

/-- C3: `main` unpacks the 7-element tuple returned by `setup_model` into
eight names (including `small_vae`), so it always raises a `ValueError` at the
unpacking, before the training loop is ever entered. -/
theorem mainReachesTrainingLoop_fails :
    mainReachesTrainingLoop =
        Except.error (PyError.valueError "not enough values to unpack") ∧
      setupModelReturn.length = 7 ∧ mainSetupModelTargets.length = 8 :=
  ⟨rfl, rfl, rfl⟩

/-- Counterexample to C6 as stated: with a retention limit of `N = 2` and
`M = 3` checkpoints present, the save deletes 2 checkpoints, not `M - N = 1`:
the code removes `M - N + 1` so that the new checkpoint fits within the
limit. -/
theorem saveCheckpoint_removes_counterexample :
    ¬ ((saveCheckpoint (some 2) [1, 2, 3] 4).1.length = 3 - 2) := by
  have hs : [1, 2, 3].mergeSort (fun a b => a ≤ b) = [1, 2, 3] :=
    List.mergeSort_of_sorted (by decide)
  simp [saveCheckpoint, checkpointRetention, hs]

/-- C6 amended: when a checkpoint save occurs with retention limit `N ≥ 1` and
`M > N` checkpoints already present, exactly `M - N + 1` oldest checkpoints are
deleted, leaving exactly `N` checkpoints after the save: the `N - 1` newest
pre-existing ones plus the new one. -/
theorem saveCheckpoint_retention (n : ℕ) (cps : List ℕ) (step : ℕ)
    (h1 : 1 ≤ n) (h2 : n < cps.length) :
    (saveCheckpoint (some n) cps step).1.length = cps.length - n + 1 ∧
      (saveCheckpoint (some n) cps step).2 =
        (cps.mergeSort (fun a b => a ≤ b)).drop (cps.length - n + 1) ++
          [step] ∧
      (saveCheckpoint (some n) cps step).2.length = n := by
  have hlen : (cps.mergeSort (fun a b => a ≤ b)).length = cps.length :=
    List.length_mergeSort cps
  have hc : n ≤ cps.length := Nat.le_of_lt h2
  refine ⟨?_, ?_, ?_⟩
  · simp only [saveCheckpoint, checkpointRetention, hlen, if_pos hc,
      List.length_take]
    omega
  · simp only [saveCheckpoint, checkpointRetention, hlen, if_pos hc]
  · simp only [saveCheckpoint, checkpointRetention, hlen, if_pos hc,
      List.length_append, List.length_drop, List.length_cons, List.length_nil]
    omega

/-- Witness for C6 amended at `N = 2`, checkpoints `[1, 2, 3]`, new step 4:
two checkpoints are removed and two remain after the save. -/
theorem saveCheckpoint_retention_witness :
    1 ≤ 2 ∧ 2 < [1, 2, 3].length ∧
      (saveCheckpoint (some 2) [1, 2, 3] 4).1.length = 2 ∧
      (saveCheckpoint (some 2) [1, 2, 3] 4).2.length = 2 := by
  have hr := saveCheckpoint_retention 2 [1, 2, 3] 4 (by decide) (by decide)
  exact ⟨by decide, by decide, hr.1, hr.2.2⟩

/-- C7 fails on the code: the value logged under the key `loss_g` at line 472
is the python variable `loss`, not the composed generator loss `loss_g` of
line 379.  When `snr_gamma` is unset, `loss` is unbound and the logging line
raises a `NameError`; when `snr_gamma` is set, `loss` is the per-sample
weighted loss vector of the fake-score step (batch size at least 2, being the
concatenation of two prompt batches), and `.item()` on it raises.  Either way
the iteration never emits the composed generator loss. -/
theorem emitIterationLogs_never_loss_g :
    (∀ (scheduler : Scheduler) (c h w : ℕ) (mp tg : Tensor 2 c h w)
      (ts : Fin 2 → ℕ) (loss_d : ℝ),
      emitIterationLogs (lossVarBinding scheduler none mp tg ts) loss_d =
        Except.error (PyError.nameError "loss")) ∧
    (∀ (scheduler : Scheduler) (γ : ℝ) (c h w : ℕ) (mp tg : Tensor 2 c h w)
      (ts : Fin 2 → ℕ) (loss_d : ℝ),
      emitIterationLogs (lossVarBinding scheduler (some γ) mp tg ts) loss_d =
        Except.error (PyError.valueError
          "only one element tensors can be converted to Python scalars")) := by
  constructor
  · intro scheduler c h w mp tg ts loss_d
    rfl
  · intro scheduler γ c h w mp tg ts loss_d
    simp [emitIterationLogs, lossVarBinding, tensorItem]

/-- C8: the fake-score training step selects its regression target by the
schedule's prediction type — the raw sampled noise for `epsilon`, the velocity
computed from latents, noise and timesteps for `v_prediction` — and for any
other configured prediction type it raises a `ValueError` before any parameter
update (the step returns the error and the parameters are untouched). -/
theorem fakeScoreStep_dispatch {b c h w : ℕ} {P : Type} (scheduler : Scheduler)
    (latents noise : Tensor b c h w) (timesteps : Fin b → ℕ) (params : P)
    (optimize : P → Tensor b c h w → P) :
    (scheduler.predictionType = "epsilon" →
      fakeScoreStep scheduler latents noise timesteps params optimize =
        Except.ok (optimize params noise)) ∧
    (scheduler.predictionType = "v_prediction" →
      fakeScoreStep scheduler latents noise timesteps params optimize =
        Except.ok (optimize params
          (getVelocity scheduler latents noise timesteps))) ∧
    (scheduler.predictionType ≠ "epsilon" →
      scheduler.predictionType ≠ "v_prediction" →
      fakeScoreStep scheduler latents noise timesteps params optimize =
        Except.error (PyError.valueError
          ("Unknown prediction type " ++ scheduler.predictionType))) := by
  refine ⟨fun he => ?_, fun hv => ?_, fun h1 h2 => ?_⟩
  · simp [fakeScoreStep, selectFakeTarget, he]
  · simp [fakeScoreStep, selectFakeTarget, hv]
  · simp [fakeScoreStep, selectFakeTarget, h1, h2]

/-- Witness for C8 at concrete schedules of each prediction type. -/
theorem fakeScoreStep_dispatch_witness :
    fakeScoreStep schedW (constT 2) (constT 3) (fun _ => 500) (0 : ℕ)
        (fun p _ => p + 1) = Except.ok 1 ∧
      fakeScoreStep schedV (constT 2) (constT 3) (fun _ => 500) (0 : ℕ)
        (fun p _ => p + 1) = Except.ok 1 ∧
      fakeScoreStep schedBad (constT 2) (constT 3) (fun _ => 500) (0 : ℕ)
        (fun p _ => p + 1) =
        Except.error (PyError.valueError "Unknown prediction type sample") :=
  ⟨(fakeScoreStep_dispatch schedW (constT 2) (constT 3) (fun _ => 500) 0
      (fun p _ => p + 1)).1 rfl,
    (fakeScoreStep_dispatch schedV (constT 2) (constT 3) (fun _ => 500) 0
      (fun p _ => p + 1)).2.1 rfl,
    (fakeScoreStep_dispatch schedBad (constT 2) (constT 3) (fun _ => 500) 0
      (fun p _ => p + 1)).2.2 (by decide) (by decide)⟩

/-- C9: when SNR-gamma reweighting is configured with `gamma` at least every
sample's (strictly positive) effective SNR, every per-sample weight
`min(snr, gamma)/snr` is exactly 1 and the reweighted fake-score loss equals
the unweighted mean-squared-error loss. -/
theorem fakeLossD_snr_unweighted {b c h w : ℕ} (scheduler : Scheduler)
    (timesteps : Fin b → ℕ) (γ : ℝ) (model_pred target : Tensor b c h w)
    (hpos : ∀ i, 0 < effectiveSnr scheduler timesteps i)
    (hle : ∀ i, effectiveSnr scheduler timesteps i ≤ γ) :
    (∀ i, mseLossWeights scheduler timesteps γ i = 1) ∧
      fakeLossD scheduler (some γ) model_pred target timesteps =
        fakeLossD scheduler none model_pred target timesteps := by
  have hwts : ∀ i, mseLossWeights scheduler timesteps γ i = 1 := by
    intro i
    simp [mseLossWeights, min_eq_left (hle i), div_self (ne_of_gt (hpos i))]
  refine ⟨hwts, ?_⟩
  simp only [fakeLossD, snrPerSampleLoss, hwts, mul_one]
  simp only [perSampleMean, mseLossNone, mseLoss, tmean4, tsum4]
  rw [← Finset.sum_div, div_div]
  congr 1
  push_cast
  ring

/-- Witness for C9 at a concrete schedule (`alpha_prod = 1/2`, so the
effective SNR is 1) and `gamma = 5`. -/
theorem fakeLossD_snr_unweighted_witness :
    mseLossWeights schedW (fun _ : Fin 1 => 500) 5 0 = 1 ∧
      fakeLossD schedW (some 5) (constT 2) (constT 3) (fun _ => 500) =
        fakeLossD schedW none (constT 2) (constT 3) (fun _ => 500) := by
  have hsnr : ∀ i : Fin 1, effectiveSnr schedW (fun _ => 500) i = 1 := by
    intro i
    unfold effectiveSnr
    rw [if_neg (by decide)]
    norm_num [computeSnr, schedW]
  have h := fakeLossD_snr_unweighted schedW (fun _ : Fin 1 => 500) 5
    (constT 2) (constT 3) (fun i => by rw [hsnr i]; norm_num)
    (fun i => by rw [hsnr i]; norm_num)
  exact ⟨h.1 0, h.2⟩

end

end OpenDMD
